import Mathlib

/-!
Shallow embedding of the spreadsheet ingestion and normalization pipeline
of the Student Grade Management System (src/index.js, authoritative
variant: the second server entrypoint in that file).

Numbers are modelled as exact rationals; JavaScript cell values are an
inductive type capturing undefined, strings and numbers, with JavaScript
truthiness.  parseFloat is modelled as a prefix decimal parser returning
none for NaN.  toFixed(2) followed by parseFloat is modelled as half-up
rounding to two decimal places on rationals.
-/

namespace StudentGrades

/-- Model of a JavaScript value as it appears in a parsed spreadsheet row
or a JSON request body: undefined, NaN, a string, or a finite number. -/
inductive JsValue where
  | undefined : JsValue
  | nan : JsValue
  | str : String → JsValue
  | num : Rat → JsValue
deriving DecidableEq, Repr

/-- JavaScript truthiness: undefined, NaN, the empty string and 0 are
falsy; every other string or number is truthy. -/
def JsValue.truthy : JsValue → Bool
  | .undefined => false
  | .nan => false
  | .str s => s ≠ ""
  | .num q => q ≠ 0

/-- Conversion String(x) as used on the resolved id and name cells. -/
def JsValue.toStr : JsValue → String
  | .undefined => "undefined"
  | .nan => "NaN"
  | .str s => s
  | .num q => toString q

/-- A raw spreadsheet row: an association list from header strings to cell
values, as produced by sheet_to_json. -/
def Row : Type := List (String × JsValue)

/-- Property access row.K: the bound value when the key is present,
undefined otherwise. -/
def getCell (row : Row) (k : String) : JsValue :=
  (List.lookup k row).getD .undefined

/-- Model of parseFloat restricted to the forms occurring in grade data:
an optional sign, integer digits and an optional fraction part, parsed as
a prefix; none models NaN (no digits parsed, undefined or NaN input). -/
def digitsVal (l : List Char) : Nat :=
  l.foldl (fun a c => a * 10 + (c.toNat - 48)) 0

def parseDec (s : String) : Option Rat :=
  let cs := s.toList.dropWhile (· = ' ')
  let sign : Rat := if cs.head? = some '-' then -1 else 1
  let cs := if cs.head? = some '-' || cs.head? = some '+' then cs.tail else cs
  let intPart := cs.takeWhile Char.isDigit
  let rest := cs.dropWhile Char.isDigit
  let fracPart := if rest.head? = some '.' then rest.tail.takeWhile Char.isDigit else []
  if intPart.isEmpty && fracPart.isEmpty then none
  else some (sign * ((digitsVal intPart : Rat) +
    (digitsVal fracPart : Rat) / ((10 : Rat) ^ fracPart.length)))

/-- Model of parseFloat applied to a cell value; none models NaN, so that
the isNaN check of the source is a none test. -/
def parseFloatJs : JsValue → Option Rat
  | .num q => some q
  | .str s => parseDec s
  | _ => none

/-- Model of parseFloat(x.toFixed(2)) for nonnegative x: half-up rounding
to two decimal places. -/
def round2 (x : Rat) : Rat :=
  ((Rat.floor (x * 100 + 1 / 2) : Int) : Rat) / 100

/-- Alias chain for student_id: row.Student_ID || row.student_id ||
row.StudentID || row.ID. -/
def studentIdAliases : List String := ["Student_ID", "student_id", "StudentID", "ID"]

/-- Alias chain for student_name. -/
def studentNameAliases : List String := ["Student_Name", "student_name", "StudentName", "Name"]

/-- Alias chain for total_marks. -/
def totalMarksAliases : List String := ["Total_Marks", "total_marks", "TotalMarks", "MaxMarks"]

/-- Alias chain for marks_obtained. -/
def marksObtainedAliases : List String := ["Marks_Obtained", "marks_obtained", "MarksObtained", "ObtainedMarks"]

/-- The JavaScript expression row.a || row.b || ... || row.z: the first
truthy cell wins; when none is truthy the value of the LAST key is
returned (possibly a falsy value such as 0, possibly undefined). -/
def resolveAliases (row : Row) : List String → JsValue
  | [] => .undefined
  | [k] => getCell row k
  | k :: ks => if (getCell row k).truthy then getCell row k else resolveAliases row ks

/-- A persisted student record as built by the upload handler. -/
structure StudentRecord where
  student_id : String
  student_name : String
  total_marks : Rat
  marks_obtained : Rat
  percentage : Rat
deriving DecidableEq, Repr

/-- Row-level failure of the upload handler: the two throw sites of the
map callback in src/index.js, carrying the 1-based row number. -/
inductive RowError where
  | missingData (rowNum : Nat)
  | invalidMarks (rowNum : Nat)
deriving DecidableEq, Repr

/-- Processing of a single row by the upload handler of src/index.js:
alias resolution, presence check (truthiness for id and name, an
undefined test for the marks), parseFloat, the isNaN and nonpositive
total checks, then the percentage computation. -/
def processRow (row : Row) (index : Nat) : Except RowError StudentRecord :=
  let studentId := resolveAliases row studentIdAliases
  let studentName := resolveAliases row studentNameAliases
  let totalMarks := resolveAliases row totalMarksAliases
  let marksObtained := resolveAliases row marksObtainedAliases
  if !studentId.truthy || !studentName.truthy ||
      totalMarks == JsValue.undefined || marksObtained == JsValue.undefined then
    .error (.missingData (index + 1))
  else
    match parseFloatJs totalMarks, parseFloatJs marksObtained with
    | some total, some obtained =>
      if total ≤ 0 then .error (.invalidMarks (index + 1))
      else .ok { student_id := studentId.toStr
                 student_name := studentName.toStr
                 total_marks := total
                 marks_obtained := obtained
                 percentage := round2 (obtained / total * 100) }
    | _, _ => .error (.invalidMarks (index + 1))

/-- jsonData.map((row, index) => ...) with fail-fast semantics: the first
failing row aborts the whole batch with its error. -/
def processRows : List Row → Nat → Except RowError (List StudentRecord)
  | [], _ => .ok []
  | r :: rs, i =>
    match processRow r i with
    | .error e => .error e
    | .ok s =>
      match processRows rs (i + 1) with
      | .error e => .error e
      | .ok l => .ok (s :: l)

/-- One upload history document. -/
structure HistoryEntry where
  filename : String
  students_count : Nat
  uploaded_at : Nat
deriving DecidableEq, Repr

/-- The persisted state touched by the upload handler: the student
collection and the upload history collection. -/
structure DbState where
  students : List StudentRecord
  history : List HistoryEntry
deriving DecidableEq, Repr

/-- Outcome of an upload request, after a file has been received and
decoded into rows. -/
inductive UploadOutcome where
  | emptyFile
  | rowFailure (e : RowError)
  | success (studentsCount : Nat) (filename : String)
deriving DecidableEq, Repr

/-- The POST /api/upload handler of src/index.js after decoding: empty
check, full in-memory processing of every row, and only on success the
deleteMany/insertMany replacement plus one history append. A thrown row
error reaches the catch block before any persistence call. -/
def uploadHandler (filename : String) (rows : List Row) (now : Nat)
    (db : DbState) : UploadOutcome × DbState :=
  if rows.isEmpty then (.emptyFile, db)
  else
    match processRows rows 0 with
    | .error e => (.rowFailure e, db)
    | .ok students =>
      (.success students.length filename,
       { students := students,
         history := db.history ++ [⟨filename, students.length, now⟩] })

/-- A stored student document in the collection: its database id together
with the record fields. -/
structure StoredStudent where
  mongoId : String
  data : StudentRecord
deriving DecidableEq, Repr

/-- Outcome of a POST /api/students/update request. -/
inductive UpdateOutcome where
  | idRequired
  | fieldsRequired
  | invalidMarks
  | notFound
  | updated (s : StudentRecord)
deriving DecidableEq, Repr

/-- Model of findByIdAndUpdate with the new option: returns the updated
document when a document with the given id exists, together with the
collection after the update; otherwise returns none and leaves the
collection as it was. -/
def findByIdAndUpdate (students : List StoredStudent) (id : String)
    (f : StudentRecord → StudentRecord) : Option StudentRecord × List StoredStudent :=
  match students with
  | [] => (none, [])
  | s :: rest =>
    if s.mongoId = id then
      (some (f s.data), { s with data := f s.data } :: rest)
    else
      let r := findByIdAndUpdate rest id f
      (r.1, s :: r.2)

/-- The POST /api/students/update handler of src/index.js: id presence
check, field presence checks (truthiness for name and total, an undefined
test for the obtained marks), parseFloat with the isNaN and nonpositive
total checks, percentage recomputation, then findByIdAndUpdate. -/
def updateStudent (id student_name : String) (total_marks marks_obtained : JsValue)
    (students : List StoredStudent) : UpdateOutcome × List StoredStudent :=
  if id = "" then (.idRequired, students)
  else if student_name = "" || !total_marks.truthy || marks_obtained == JsValue.undefined then
    (.fieldsRequired, students)
  else
    match parseFloatJs total_marks, parseFloatJs marks_obtained with
    | some total, some obtained =>
      if total ≤ 0 then (.invalidMarks, students)
      else
        let r := findByIdAndUpdate students id fun s =>
          { s with student_name := student_name
                   total_marks := total
                   marks_obtained := obtained
                   percentage := round2 (obtained / total * 100) }
        match r.1 with
        | none => (.notFound, r.2)
        | some u => (.updated u, r.2)
    | _, _ => (.invalidMarks, students)

/-- Comparison used to model sort on uploaded_at with direction -1:
descending timestamps. -/
def historyDescending (a b : HistoryEntry) : Bool :=
  decide (b.uploaded_at ≤ a.uploaded_at)

/-- The GET /api/upload-history handler of src/index.js: the collection
sorted by uploaded_at descending, limited to 10 documents. -/
def getUploadHistory (entries : List HistoryEntry) : List HistoryEntry :=
  (entries.mergeSort historyDescending).take 10

/-! Concrete inputs used to instantiate the claim theorems. -/

/-- A well-formed row used alongside a failing row in an aborted batch. -/
def c1goodRow : Row :=
  [("Student_ID", .str "S1"), ("Student_Name", .str "Ana"),
   ("Total_Marks", .num 100), ("Marks_Obtained", .num 90)]

/-- A row whose total marks cell holds 0, making the batch fail. -/
def c1badRow : Row :=
  [("Student_ID", .str "S2"), ("Student_Name", .str "Ben"),
   ("Total_Marks", .num 0), ("Marks_Obtained", .num 50)]

/-- A previously persisted state that an aborted upload must not touch. -/
def c1db : DbState :=
  { students := [⟨"OLD1", "Old Student", 10, 5, 50⟩],
    history := [⟨"old.xlsx", 1, 1⟩] }

/-- The spec example row for student S501. -/
def quinnRow : Row :=
  [("Student_ID", .str "S501"), ("Student_Name", .str "Quinn Flores"),
   ("Total_Marks", .num 100), ("Marks_Obtained", .num 100)]

/-- The spec example row for student S502. -/
def morganRow : Row :=
  [("Student_ID", .str "S502"), ("Student_Name", .str "Morgan Nguyen"),
   ("Total_Marks", .num 100), ("Marks_Obtained", .num 52)]

/-- A two-row well-formed batch. -/
def c3rows : List Row :=
  [[("Student_ID", .str "S1"), ("Student_Name", .str "Ana"),
    ("Total_Marks", .num 100), ("Marks_Obtained", .num 90)],
   [("Student_ID", .str "S2"), ("Student_Name", .str "Ben"),
    ("Total_Marks", .num 80), ("Marks_Obtained", .num 60)]]

/-- A previously persisted state replaced by a successful upload. -/
def c3db : DbState :=
  { students := [⟨"OLD", "Old Student", 10, 5, 50⟩],
    history := [⟨"old.xlsx", 1, 1⟩] }

/-- A row written with the primary header spellings. -/
def c4row1 : Row :=
  [("Student_ID", .str "S7"), ("Student_Name", .str "Ana"),
   ("Total_Marks", .num 50), ("Marks_Obtained", .num 20)]

/-- The same logical row written with the alternative header spellings. -/
def c4row2 : Row :=
  [("ID", .str "S7"), ("Name", .str "Ana"),
   ("MaxMarks", .num 50), ("ObtainedMarks", .num 20)]

/-- A row whose total marks cell is non-numeric. -/
def c5row : Row :=
  [("Student_ID", .str "S3"), ("Student_Name", .str "Eli"),
   ("Total_Marks", .str "abc"), ("Marks_Obtained", .num 10)]

/-- A two-student collection for the update examples. -/
def c7students : List StoredStudent :=
  [⟨"x1", ⟨"S1", "Old Name", 100, 40, 40⟩⟩,
   ⟨"x2", ⟨"S2", "Other", 100, 90, 90⟩⟩]

/-- A row whose obtained marks exceed its total: 100001 out of 100000. -/
def c9row : Row :=
  [("Student_ID", .str "S6"), ("Student_Name", .str "Casey"),
   ("Total_Marks", .num 100000), ("Marks_Obtained", .num 100001)]

/-- A row whose obtained marks exceed its total: 60 out of 50. -/
def c9wrow : Row :=
  [("Student_ID", .str "S9"), ("Student_Name", .str "Riley"),
   ("Total_Marks", .num 50), ("Marks_Obtained", .num 60)]

/-- A row whose only obtained-marks cell is the LAST alias of the chain,
holding the number 0. -/
def c10row : Row :=
  [("Student_ID", .str "S1"), ("Student_Name", .str "Ana"),
   ("Total_Marks", .num 100), ("ObtainedMarks", .num 0)]

/-- A row whose only obtained-marks cell is a non-final alias of the
chain, holding the number 0. -/
def c10wrow : Row :=
  [("Student_ID", .str "S2"), ("Student_Name", .str "Bo"),
   ("Total_Marks", .num 100), ("marks_obtained", .num 0)]

/-! Helper lemmas about the pipeline. -/

/-- A batch that processes successfully yields one record per row. -/
theorem processRows_ok_length (rows : List Row) (k : Nat) (l : List StudentRecord)
    (h : processRows rows k = .ok l) : l.length = rows.length := by
  induction rows generalizing k l with
  | nil => simp only [processRows] at h; cases h; rfl
  | cons r rs ih =>
    simp only [processRows] at h
    cases hpr : processRow r k with
    | error e => rw [hpr] at h; cases h
    | ok s =>
      rw [hpr] at h
      cases hrest : processRows rs (k + 1) with
      | error e => rw [hrest] at h; cases h
      | ok l2 =>
        rw [hrest] at h
        cases h
        simp [ih (k + 1) l2 hrest]

/-- If any single row fails, the whole batch processing fails. -/
theorem processRows_error_of_row (rows : List Row) (k i : Nat) (h : i < rows.length)
    (hfail : ∀ s, processRow (rows.get ⟨i, h⟩) (k + i) ≠ .ok s) :
    ∃ e, processRows rows k = .error e := by
  induction rows generalizing k i with
  | nil => exact absurd h (by simp)
  | cons r rs ih =>
    cases i with
    | zero =>
      cases hpr : processRow r k with
      | error e => exact ⟨e, by simp only [processRows]; rw [hpr]⟩
      | ok s => exact absurd hpr (by simpa using hfail s)
    | succ j =>
      cases hpr : processRow r k with
      | error e => exact ⟨e, by simp only [processRows]; rw [hpr]⟩
      | ok s =>
        have hj : j < rs.length := by simpa using h
        obtain ⟨e, he⟩ := ih (k + 1) j hj (by
          intro s2 hs2
          exact hfail s2 (by simpa [Nat.add_assoc, Nat.add_comm 1 j] using hs2))
        exact ⟨e, by simp only [processRows]; rw [hpr, he]⟩

/-- Every record accepted by processRow has a positive total and carries
the half-up rounded percentage computed from its own marks. -/
theorem processRow_ok_spec (row : Row) (i : Nat) (s : StudentRecord)
    (h : processRow row i = .ok s) :
    0 < s.total_marks ∧ s.percentage = round2 (s.marks_obtained / s.total_marks * 100) := by
  simp only [processRow] at h
  split at h
  · cases h
  · split at h
    · rename_i total obtained hpt hpo
      split at h
      · cases h
      · rename_i hle
        cases h
        exact ⟨lt_of_not_le hle, rfl⟩
    · cases h

/-- findByIdAndUpdate leaves the collection unchanged when no document
has the requested id, and returns none. -/
theorem findByIdAndUpdate_not_found (students : List StoredStudent) (id : String)
    (f : StudentRecord → StudentRecord) (h : ∀ s ∈ students, s.mongoId ≠ id) :
    findByIdAndUpdate students id f = (none, students) := by
  induction students with
  | nil => rfl
  | cons s rest ih =>
    have hs : s.mongoId ≠ id := h s (by simp)
    simp only [findByIdAndUpdate, if_neg hs]
    rw [ih fun s2 hs2 => h s2 (by simp [hs2])]

/-- Any document returned by findByIdAndUpdate is the image of some
stored record under the update function. -/
theorem findByIdAndUpdate_fst_some (students : List StoredStudent) (id : String)
    (f : StudentRecord → StudentRecord) (u : StudentRecord)
    (h : (findByIdAndUpdate students id f).1 = some u) : ∃ s0, u = f s0 := by
  induction students with
  | nil => cases h
  | cons s rest ih =>
    simp only [findByIdAndUpdate] at h
    split at h
    · exact ⟨s.data, by cases h; rfl⟩
    · exact ih h

/-- Full inversion of an accepted row: the marks cells parsed to finite
numbers, the total is positive, and the record is built from the parsed
values with the rounded percentage. -/
theorem processRow_ok_inv (row : Row) (i : Nat) (s : StudentRecord)
    (h : processRow row i = .ok s) :
    ∃ t o, parseFloatJs (resolveAliases row totalMarksAliases) = some t ∧
      parseFloatJs (resolveAliases row marksObtainedAliases) = some o ∧ 0 < t ∧
      s = ⟨(resolveAliases row studentIdAliases).toStr,
           (resolveAliases row studentNameAliases).toStr,
           t, o, round2 (o / t * 100)⟩ := by
  simp only [processRow] at h
  split at h
  · cases h
  · split at h
    · rename_i total obtained hpt hpo
      split at h
      · cases h
      · rename_i hle
        cases h
        exact ⟨total, obtained, hpt, hpo, lt_of_not_le hle, rfl⟩
    · cases h

/-! Claim theorems. -/

/-- C1: for every upload batch, if any row fails normalization or
validation then the entire upload is aborted with no persistence call
issued, and the previously persisted student set is left completely
unchanged; all rows are processed fully in memory before any clear or
insert happens. -/
theorem upload_fail_fast (filename : String) (rows : List Row) (now : Nat)
    (db : DbState) (i : Nat) (h : i < rows.length)
    (hfail : ∀ s, processRow (rows.get ⟨i, h⟩) i ≠ .ok s) :
    ∃ e, uploadHandler filename rows now db = (.rowFailure e, db) := by
  obtain ⟨e, he⟩ := processRows_error_of_row rows 0 i h
    (by simpa using hfail)
  refine ⟨e, ?_⟩
  have hne : rows.isEmpty = false := by
    cases rows with
    | nil => exact absurd h (by simp)
    | cons r rs => rfl
  simp only [uploadHandler, hne, Bool.false_eq_true, if_false, he]

/-- C1 witness: a two-row batch whose second row has total marks 0 aborts
the upload and leaves the previously persisted state untouched. -/
theorem upload_fail_fast_witness :
    ∃ e, uploadHandler "bad.xlsx" [c1goodRow, c1badRow] 9 c1db = (.rowFailure e, c1db) := by
  apply upload_fail_fast "bad.xlsx" [c1goodRow, c1badRow] 9 c1db 1 (by simp)
  intro s hs
  simp [c1badRow, processRow, resolveAliases, getCell, List.lookup,
    studentIdAliases, studentNameAliases, totalMarksAliases, marksObtainedAliases,
    JsValue.truthy] at hs

/-- C2: every stored percentage is the half-up two-decimal rounding of
obtained over total times 100; in particular the batch of the spec
examples stores 100 for S501 and 52 for S502. -/
theorem stored_percentage_half_up :
    (∀ (row : Row) (i : Nat) (s : StudentRecord), processRow row i = .ok s →
      s.percentage = round2 (s.marks_obtained / s.total_marks * 100)) ∧
    processRow quinnRow 0 = .ok ⟨"S501", "Quinn Flores", 100, 100, 100⟩ ∧
    processRow morganRow 0 = .ok ⟨"S502", "Morgan Nguyen", 100, 52, 52⟩ := by
  refine ⟨fun row i s h => (processRow_ok_spec row i s h).2, ?_, ?_⟩
  · simp [quinnRow, processRow, resolveAliases, getCell, List.lookup,
      studentIdAliases, studentNameAliases, totalMarksAliases, marksObtainedAliases,
      JsValue.truthy, JsValue.toStr, parseFloatJs]
    norm_num [round2, Rat.floor_def']
  · simp [morganRow, processRow, resolveAliases, getCell, List.lookup,
      studentIdAliases, studentNameAliases, totalMarksAliases, marksObtainedAliases,
      JsValue.truthy, JsValue.toStr, parseFloatJs]
    norm_num [round2, Rat.floor_def']

/-- C2 witness: the general part applied to the concrete S501 row. -/
theorem stored_percentage_half_up_witness :
    (⟨"S501", "Quinn Flores", 100, 100, (100 : Rat)⟩ : StudentRecord).percentage =
      round2 ((100 : Rat) / 100 * 100) :=
  stored_percentage_half_up.1 quinnRow 0 _ stored_percentage_half_up.2.1

/-- C3: a successful upload of N well-formed rows replaces the student
set with exactly those N records, appends exactly one history entry
counting N students, and reports N and the original filename. -/
theorem upload_success (filename : String) (rows : List Row) (now : Nat)
    (db : DbState) (l : List StudentRecord) (hne : rows ≠ [])
    (hok : processRows rows 0 = .ok l) :
    uploadHandler filename rows now db =
      (.success rows.length filename,
       { students := l,
         history := db.history ++ [⟨filename, rows.length, now⟩] }) ∧
    l.length = rows.length := by
  have hlen := processRows_ok_length rows 0 l hok
  have hemp : rows.isEmpty = false := by
    cases rows with
    | nil => exact absurd rfl hne
    | cons r rs => rfl
  refine ⟨?_, hlen⟩
  simp only [uploadHandler, hemp, Bool.false_eq_true, if_false, hok, hlen]

/-- C3 witness: a concrete two-row batch fully replaces a one-student
state and appends one history entry counting two students. -/
theorem upload_success_witness :
    uploadHandler "marks.xlsx" c3rows 7 c3db =
      (.success c3rows.length "marks.xlsx",
       { students := [⟨"S1", "Ana", 100, 90, 90⟩, ⟨"S2", "Ben", 80, 60, 75⟩],
         history := c3db.history ++ [⟨"marks.xlsx", c3rows.length, 7⟩] }) ∧
    ([⟨"S1", "Ana", 100, 90, 90⟩, ⟨"S2", "Ben", 80, 60, 75⟩] :
      List StudentRecord).length = c3rows.length := by
  apply upload_success "marks.xlsx" c3rows 7 c3db _ (by simp [c3rows])
  simp [c3rows, processRows, processRow, resolveAliases, getCell, List.lookup,
    studentIdAliases, studentNameAliases, totalMarksAliases, marksObtainedAliases,
    JsValue.truthy, JsValue.toStr, parseFloatJs]
  norm_num [round2, Rat.floor_def']

/-- C6: an upload that decodes to an empty sequence of rows is rejected
as an empty file and performs no persistence. -/
theorem upload_empty_file (filename : String) (now : Nat) (db : DbState) :
    uploadHandler filename [] now db = (.emptyFile, db) := rfl

/-- C4: alias resolution tries the listed aliases in order and the first
match (a present, truthy cell) wins; consequently two rows whose four
fields resolve identically, under whichever accepted spellings, process
to identical output. -/
theorem alias_resolution :
    (∀ (row : Row) (pre : List String) (k : String) (post : List String),
      (∀ k2 ∈ pre, (getCell row k2).truthy = false) → (getCell row k).truthy = true →
      resolveAliases row (pre ++ k :: post) = getCell row k) ∧
    (∀ (r1 r2 : Row) (i : Nat),
      resolveAliases r1 studentIdAliases = resolveAliases r2 studentIdAliases →
      resolveAliases r1 studentNameAliases = resolveAliases r2 studentNameAliases →
      resolveAliases r1 totalMarksAliases = resolveAliases r2 totalMarksAliases →
      resolveAliases r1 marksObtainedAliases = resolveAliases r2 marksObtainedAliases →
      processRow r1 i = processRow r2 i) := by
  constructor
  · intro row pre
    induction pre with
    | nil =>
      intro k post _ ht
      cases post with
      | nil => rfl
      | cons p ps => simp [resolveAliases, ht]
    | cons q pre2 ih =>
      intro k post hfalsy ht
      have hq : (getCell row q).truthy = false := hfalsy q (by simp)
      simp only [List.cons_append]
      cases hrest : pre2 ++ k :: post with
      | nil => exact absurd hrest (by simp)
      | cons a as =>
        show (if (getCell row q).truthy then getCell row q
              else resolveAliases row (a :: as)) = getCell row k
        rw [hq]
        simp only [Bool.false_eq_true, if_false]
        rw [← hrest]
        exact ih k post (fun k2 hk2 => hfalsy k2 (by simp [hk2])) ht
  · intro r1 r2 i h1 h2 h3 h4
    simp only [processRow, h1, h2, h3, h4]

/-- C4 witness: the same logical row under the primary spellings and
under the alternative spellings processes identically. -/
theorem alias_resolution_witness : processRow c4row1 0 = processRow c4row2 0 := by
  apply alias_resolution.2 c4row1 c4row2 0 <;>
    simp [c4row1, c4row2, resolveAliases, getCell, List.lookup,
      studentIdAliases, studentNameAliases, totalMarksAliases, marksObtainedAliases,
      JsValue.truthy]

/-- C5: a row whose total or obtained marks do not parse as a number, or
whose total is not strictly positive, is rejected; consequently every
accepted record has a strictly positive total as the divisor of its
percentage computation. -/
theorem validator_rejects :
    (∀ (row : Row) (i : Nat),
      (parseFloatJs (resolveAliases row totalMarksAliases) = none ∨
       parseFloatJs (resolveAliases row marksObtainedAliases) = none ∨
       ∃ t, parseFloatJs (resolveAliases row totalMarksAliases) = some t ∧ t ≤ 0) →
      ∃ e, processRow row i = .error e) ∧
    (∀ (row : Row) (i : Nat) (s : StudentRecord), processRow row i = .ok s →
      0 < s.total_marks ∧ s.percentage = round2 (s.marks_obtained / s.total_marks * 100)) := by
  constructor
  · intro row i hbad
    cases hres : processRow row i with
    | error e => exact ⟨e, rfl⟩
    | ok s =>
      exfalso
      obtain ⟨t, o, hpt, hpo, htpos, _⟩ := processRow_ok_inv row i s hres
      rcases hbad with hb | hb | ⟨t2, hb, hb2⟩
      · rw [hb] at hpt; cases hpt
      · rw [hb] at hpo; cases hpo
      · rw [hb] at hpt
        injection hpt with h2
        rw [← h2] at htpos
        exact absurd htpos (not_lt.mpr hb2)
  · exact processRow_ok_spec

/-- C5 witness: a row with a non-numeric total marks cell is rejected. -/
theorem validator_rejects_witness : ∃ e, processRow c5row 0 = .error e :=
  validator_rejects.1 c5row 0 (Or.inl (by
    simp [c5row, resolveAliases, getCell, List.lookup, totalMarksAliases,
      JsValue.truthy, parseFloatJs, parseDec]))

/-- C7: a successful update stores the newly supplied name and marks and
recomputes the percentage exactly as the percentage calculator does;
updating an id matching no stored document returns not-found and leaves
every record unmodified; concretely, total 80 and obtained 60 store
percentage 75. -/
theorem update_recompute :
    (∀ (students students2 : List StoredStudent) (id name : String)
       (tm mo : JsValue) (total obtained : Rat) (u : StudentRecord),
       parseFloatJs tm = some total → parseFloatJs mo = some obtained →
       updateStudent id name tm mo students = (.updated u, students2) →
       u.student_name = name ∧ u.total_marks = total ∧ u.marks_obtained = obtained ∧
       u.percentage = round2 (obtained / total * 100)) ∧
    (∀ (students : List StoredStudent) (id name : String) (tm mo : JsValue)
       (total obtained : Rat),
       (∀ s ∈ students, s.mongoId ≠ id) →
       id ≠ "" → name ≠ "" → tm.truthy = true → mo ≠ JsValue.undefined →
       parseFloatJs tm = some total → parseFloatJs mo = some obtained → 0 < total →
       updateStudent id name tm mo students = (.notFound, students)) ∧
    updateStudent "x1" "Ana" (.num 80) (.num 60) c7students =
      (.updated ⟨"S1", "Ana", 80, 60, 75⟩,
       [⟨"x1", ⟨"S1", "Ana", 80, 60, 75⟩⟩, ⟨"x2", ⟨"S2", "Other", 100, 90, 90⟩⟩]) := by
  refine ⟨?_, ?_, ?_⟩
  · intro students students2 id name tm mo total obtained u hpt hpo heq
    simp only [updateStudent] at heq
    split at heq
    · cases heq
    · split at heq
      · cases heq
      · rw [hpt, hpo] at heq
        simp only at heq
        split at heq
        · cases heq
        · split at heq
          · cases heq
          · rename_i u0 hfind
            obtain ⟨s0, hs0⟩ := findByIdAndUpdate_fst_some students id _ u0 hfind
            have hu : u = u0 := by cases heq; rfl
            rw [hu, hs0]
            exact ⟨rfl, rfl, rfl, rfl⟩
  · intro students id name tm mo total obtained hnone hid hname htm hmo hpt hpo htpos
    have hfind := findByIdAndUpdate_not_found students id
      (fun s => { s with student_name := name, total_marks := total,
                         marks_obtained := obtained,
                         percentage := round2 (obtained / total * 100) }) hnone
    simp only [updateStudent, hpt, hpo, hfind, if_neg hid]
    have hcond : (decide (name = "") || !tm.truthy || (mo == JsValue.undefined)) = false := by
      simp [hname, htm, hmo]
    rw [hcond]
    simp only [Bool.false_eq_true, if_false]
    rw [if_neg (not_le.mpr htpos)]
  · simp [updateStudent, c7students, parseFloatJs, JsValue.truthy,
      findByIdAndUpdate]
    norm_num [round2, Rat.floor_def']

/-- C7 witness: the recomputation part applied to the concrete update of
student x1 with total 80 and obtained 60, yielding percentage 75. -/
theorem update_recompute_witness :
    (⟨"S1", "Ana", 80, 60, (75 : Rat)⟩ : StudentRecord).student_name = "Ana" ∧
    (⟨"S1", "Ana", 80, 60, (75 : Rat)⟩ : StudentRecord).total_marks = 80 ∧
    (⟨"S1", "Ana", 80, 60, (75 : Rat)⟩ : StudentRecord).marks_obtained = 60 ∧
    (⟨"S1", "Ana", 80, 60, (75 : Rat)⟩ : StudentRecord).percentage =
      round2 ((60 : Rat) / 80 * 100) :=
  update_recompute.1 c7students _ "x1" "Ana" (.num 80) (.num 60) 80 60 _
    rfl rfl update_recompute.2.2

/-- C8: the upload history listing returns at most 10 entries, ordered
by uploaded_at descending. -/
theorem history_limit_sorted (entries : List HistoryEntry) :
    (getUploadHistory entries).length ≤ 10 ∧
    (getUploadHistory entries).Pairwise
      (fun a b => b.uploaded_at ≤ a.uploaded_at) := by
  constructor
  · exact List.length_take_le 10 (entries.mergeSort historyDescending)
  · have hsorted := @List.sorted_mergeSort HistoryEntry historyDescending
      (fun a b c hab hbc => by
        simp only [historyDescending, decide_eq_true_eq] at *
        omega)
      (fun a b => by
        simp only [historyDescending, Bool.or_eq_true, decide_eq_true_eq]
        omega)
      entries
    exact ((hsorted.sublist (List.take_sublist 10 _)).imp
      (fun hab => by simp [historyDescending] at hab; exact hab))

/-- C9 counterexample: the row with total 100000 and obtained 100001 is
accepted and its stored percentage is exactly 100, because round2 maps
100.001 to 100; so the stored value is not strictly greater than 100. -/
theorem over_total_counterexample :
    processRow c9row 0 = .ok ⟨"S6", "Casey", 100000, 100001, 100⟩ ∧
    ¬ (100 : Rat) > 100 := by
  constructor
  · simp [c9row, processRow, resolveAliases, getCell, List.lookup,
      studentIdAliases, studentNameAliases, totalMarksAliases, marksObtainedAliases,
      JsValue.truthy, JsValue.toStr, parseFloatJs]
    norm_num [round2, Rat.floor_def']
  · norm_num

/-- C9 amended: a row whose marks parse as finite numbers with positive
total and obtained strictly above total is accepted, and its stored
percentage is the half-up rounding of obtained over total times 100, a
value at least 100 (equality with 100 is possible through rounding). -/
theorem over_total_accepted (row : Row) (i : Nat) (t o : Rat)
    (hid : (resolveAliases row studentIdAliases).truthy = true)
    (hname : (resolveAliases row studentNameAliases).truthy = true)
    (hpt : parseFloatJs (resolveAliases row totalMarksAliases) = some t)
    (hpo : parseFloatJs (resolveAliases row marksObtainedAliases) = some o)
    (htpos : 0 < t) (hgt : t < o) :
    processRow row i = .ok ⟨(resolveAliases row studentIdAliases).toStr,
      (resolveAliases row studentNameAliases).toStr, t, o, round2 (o / t * 100)⟩ ∧
    100 ≤ round2 (o / t * 100) := by
  constructor
  · have hu1 : (resolveAliases row totalMarksAliases == JsValue.undefined) = false := by
      cases hv : resolveAliases row totalMarksAliases <;>
        simp_all [parseFloatJs]
    have hu2 : (resolveAliases row marksObtainedAliases == JsValue.undefined) = false := by
      cases hv : resolveAliases row marksObtainedAliases <;>
        simp_all [parseFloatJs]
    simp only [processRow, hid, hname, hu1, hu2, hpt, hpo, Bool.not_true,
      Bool.false_or, Bool.or_self, Bool.or_false, Bool.false_eq_true, if_false]
    rw [if_neg (not_le.mpr htpos)]
  · have hx : (100 : Rat) < o / t * 100 := by
      have h1 : (1 : Rat) < o / t := (one_lt_div htpos).mpr hgt
      linarith
    have hfl : (10000 : Int) ≤ Rat.floor (o / t * 100 * 100 + 1 / 2) := by
      rw [Rat.le_floor]
      push_cast
      linarith
    unfold round2
    rw [le_div_iff₀ (by norm_num : (0 : Rat) < 100)]
    calc (100 : Rat) * 100 = ((10000 : Int) : Rat) := by norm_num
    _ ≤ _ := Int.cast_le.mpr hfl

/-- C9 witness: the amended theorem applied to the row with total 50 and
obtained 60, accepted with a stored percentage of at least 100. -/
theorem over_total_accepted_witness :
    processRow c9wrow 0 = .ok ⟨(resolveAliases c9wrow studentIdAliases).toStr,
      (resolveAliases c9wrow studentNameAliases).toStr, 50, 60,
      round2 (60 / 50 * 100)⟩ ∧
    100 ≤ round2 ((60 : Rat) / 50 * 100) :=
  over_total_accepted c9wrow 0 50 60
    (by simp [c9wrow, resolveAliases, getCell, List.lookup, studentIdAliases,
      JsValue.truthy])
    (by simp [c9wrow, resolveAliases, getCell, List.lookup, studentNameAliases,
      JsValue.truthy])
    (by simp [c9wrow, resolveAliases, getCell, List.lookup, totalMarksAliases,
      JsValue.truthy, parseFloatJs])
    (by simp [c9wrow, resolveAliases, getCell, List.lookup, marksObtainedAliases,
      JsValue.truthy, parseFloatJs])
    (by norm_num) (by norm_num)

/-- C10 counterexample: a row whose only obtained-marks cell is the last
alias of the chain, ObtainedMarks, holding the number 0, is NOT rejected:
the fallback chain evaluates to 0, which passes the undefined test, and
the row is accepted with marks_obtained 0. -/
theorem zero_marks_counterexample :
    processRow c10row 0 = .ok ⟨"S1", "Ana", 100, 0, 0⟩ := by
  simp [c10row, processRow, resolveAliases, getCell, List.lookup,
    studentIdAliases, studentNameAliases, totalMarksAliases, marksObtainedAliases,
    JsValue.truthy, JsValue.toStr, parseFloatJs]
  norm_num [round2, Rat.floor_def']

/-- C10 amended: when the cell holding the number 0 sits at one of the
first three aliases of its chain and every other alias of that chain is
absent, the fallback chain evaluates to the value of the last absent
alias, undefined, and the row is rejected as missing required data; this
holds for the marks_obtained chain and for the total_marks chain alike
(when the 0 sits at the last alias the chain instead evaluates to 0 and
the presence check passes, as the counterexample shows). -/
theorem zero_marks_missing :
    (∀ (row : Row) (i : Nat) (a : String),
      a ∈ (["Marks_Obtained", "marks_obtained", "MarksObtained"] : List String) →
      getCell row a = .num 0 →
      (∀ k ∈ marksObtainedAliases, k ≠ a → getCell row k = .undefined) →
      processRow row i = .error (.missingData (i + 1))) ∧
    (∀ (row : Row) (i : Nat) (a : String),
      a ∈ (["Total_Marks", "total_marks", "TotalMarks"] : List String) →
      getCell row a = .num 0 →
      (∀ k ∈ totalMarksAliases, k ≠ a → getCell row k = .undefined) →
      processRow row i = .error (.missingData (i + 1))) := by
  constructor
  · intro row i a ha h0 habs
    have hres : resolveAliases row marksObtainedAliases = .undefined := by
      simp only [List.mem_cons, List.mem_singleton] at ha
      rcases ha with rfl | rfl | rfl | ha
      · have h2 := habs "marks_obtained" (by simp [marksObtainedAliases]) (by decide)
        have h3 := habs "MarksObtained" (by simp [marksObtainedAliases]) (by decide)
        have h4 := habs "ObtainedMarks" (by simp [marksObtainedAliases]) (by decide)
        simp [resolveAliases, marksObtainedAliases, h0, h2, h3, h4, JsValue.truthy]
      · have h1 := habs "Marks_Obtained" (by simp [marksObtainedAliases]) (by decide)
        have h3 := habs "MarksObtained" (by simp [marksObtainedAliases]) (by decide)
        have h4 := habs "ObtainedMarks" (by simp [marksObtainedAliases]) (by decide)
        simp [resolveAliases, marksObtainedAliases, h0, h1, h3, h4, JsValue.truthy]
      · have h1 := habs "Marks_Obtained" (by simp [marksObtainedAliases]) (by decide)
        have h2 := habs "marks_obtained" (by simp [marksObtainedAliases]) (by decide)
        have h4 := habs "ObtainedMarks" (by simp [marksObtainedAliases]) (by decide)
        simp [resolveAliases, marksObtainedAliases, h0, h1, h2, h4, JsValue.truthy]
      · cases ha
    simp [processRow, hres]
  · intro row i a ha h0 habs
    have hres : resolveAliases row totalMarksAliases = .undefined := by
      simp only [List.mem_cons, List.mem_singleton] at ha
      rcases ha with rfl | rfl | rfl | ha
      · have h2 := habs "total_marks" (by simp [totalMarksAliases]) (by decide)
        have h3 := habs "TotalMarks" (by simp [totalMarksAliases]) (by decide)
        have h4 := habs "MaxMarks" (by simp [totalMarksAliases]) (by decide)
        simp [resolveAliases, totalMarksAliases, h0, h2, h3, h4, JsValue.truthy]
      · have h1 := habs "Total_Marks" (by simp [totalMarksAliases]) (by decide)
        have h3 := habs "TotalMarks" (by simp [totalMarksAliases]) (by decide)
        have h4 := habs "MaxMarks" (by simp [totalMarksAliases]) (by decide)
        simp [resolveAliases, totalMarksAliases, h0, h1, h3, h4, JsValue.truthy]
      · have h1 := habs "Total_Marks" (by simp [totalMarksAliases]) (by decide)
        have h2 := habs "total_marks" (by simp [totalMarksAliases]) (by decide)
        have h4 := habs "MaxMarks" (by simp [totalMarksAliases]) (by decide)
        simp [resolveAliases, totalMarksAliases, h0, h1, h2, h4, JsValue.truthy]
      · cases ha
    simp [processRow, hres]

/-- C10 witness: a row whose only obtained-marks cell is the non-final
alias marks_obtained holding 0 is rejected as missing required data. -/
theorem zero_marks_missing_witness :
    processRow c10wrow 0 = .error (.missingData 1) :=
  zero_marks_missing.1 c10wrow 0 "marks_obtained" (by simp)
    (by simp [getCell, c10wrow, List.lookup])
    (by
      intro k hk hne
      simp only [marksObtainedAliases, List.mem_cons, List.not_mem_nil,
        or_false] at hk
      rcases hk with rfl | rfl | rfl | rfl
      · simp [getCell, c10wrow, List.lookup]
      · exact absurd rfl hne
      · simp [getCell, c10wrow, List.lookup]
      · simp [getCell, c10wrow, List.lookup])

end StudentGrades
